import Mathlib

/-
Verification of the daily news briefing script (main.py).
The script is embedded shallowly: every external call (news API, generative
model, email API) is passed in as an explicit function argument, every print
statement is recorded as a string in a printed list, and Python dictionaries
with optional keys become structures with Option fields.
-/

namespace KopAI

/-- The source sub-record of an article dictionary; the name key may be
absent, as may the whole source sub-record. -/
structure Source where
  name : Option String
deriving DecidableEq

/-- An article record as returned by the news API: the keys title, source
and url may each be absent. -/
structure Article where
  title : Option String
  source : Option Source
  url : Option String
deriving DecidableEq

/-- Embeds the Python expression article.get(\x7btitle key\x7d, str N slash A). -/
def Article.getTitle (a : Article) : String := a.title.getD "N/A"

/-- Embeds article.get of the url key with default hash. -/
def Article.getUrl (a : Article) : String := a.url.getD "#"

/-- Embeds article.get of source with default empty dict, then get of name
with the default. -/
def Article.getSourceName (a : Article) : String :=
  ((a.source.getD ⟨none⟩).name).getD "N/A"

/-- Rendering of an optional string by a Python f-string: a missing value
prints as the text None. -/
def pyStr : Option String → String
  | none => "None"
  | some s => s

/-- Python truthiness of an optional environment string: falsy when the
variable is unset or the empty string. -/
def pyFalsy : Option String → Bool
  | none => true
  | some s => s.isEmpty

/-- The four environment variables read at configuration time. -/
structure Env where
  NEWS_API_KEY : Option String
  GEMINI_API_KEY : Option String
  SENDGRID_API_KEY : Option String
  YOUR_EMAIL_ADDRESS : Option String
deriving DecidableEq

/-- The fixed topic constant. -/
def TOPIC : String := "Liverpool FC"

/-- The keyword arguments of the get_everything call made by fetch_news. -/
structure GetEverythingParams where
  q : String
  language : String
  sort_by : String
  page_size : Nat
deriving DecidableEq

/-- The arguments fetch_news passes to the news client: quoted topic,
English, sorted by publishedAt, page size 5. -/
def getEverythingArgs (topic : String) : GetEverythingParams :=
  { q := "\"" ++ topic ++ "\"", language := "en",
    sort_by := "publishedAt", page_size := 5 }

/-- The response dictionary of the news API; the articles key may be
absent. -/
structure NewsResponse where
  articles : Option (List Article)
deriving DecidableEq

/-- Value and console output of one fetch_news call. -/
structure FetchResult where
  value : List Article
  printed : List String
deriving DecidableEq

/-- Embeds fetch_news: calls the news API with the fixed arguments, returns
the articles list of the response (default empty); on an exception it logs
the error and returns the empty list. -/
def fetch_news (topic : String)
    (api : GetEverythingParams → Except String NewsResponse) : FetchResult :=
  let log0 := "Fetching top 5 news articles for '" ++ topic ++ "'..."
  match api (getEverythingArgs topic) with
  | .ok top_headlines =>
      { value := top_headlines.articles.getD [], printed := [log0] }
  | .error e =>
      { value := [], printed := [log0, "Error fetching news: " ++ e] }

/-- One line of the articles_text accumulator built by summarize_with_ai
for the article at index i. -/
def articleLine (i : Nat) (a : Article) : String :=
  "Article " ++ toString (i + 1) ++ ": \"" ++ a.getTitle ++
    "\" (Source: " ++ a.getSourceName ++ ")\n"

/-- The articles_text string built by the enumeration loop. -/
def articles_text (articles : List Article) : String :=
  String.join ((articles.enum).map (fun p => articleLine p.1 p.2))

/-- The prompt string assembled by summarize_with_ai. -/
def summaryPrompt (topic : String) (articles : List Article) : String :=
  "You are a world-class sports news analyst for an executive briefing. " ++
  "Your task is to provide a clear, concise, and neutral summary of the key events related to " ++
  topic ++ ", " ++
  "based on the following news headlines. Synthesize the information into a single, cohesive paragraph " ++
  "of no more than 120 words. Focus only on verifiable facts and key developments mentioned in the titles.\n\n" ++
  "--- NEWS ARTICLES ---\n" ++ articles_text articles

/-- Value, external-call flag and console output of one summarize_with_ai
call; calledAI records whether generate_content was invoked. -/
structure SummaryResult where
  text : String
  calledAI : Bool
  printed : List String
deriving DecidableEq

/-- Embeds summarize_with_ai: with an empty article list it returns the
placeholder without touching the generative model; otherwise it builds the
prompt, calls the model, and on an exception returns an error text. -/
def summarize_with_ai (generate : String → Except String String)
    (articles : List Article) (topic : String) : SummaryResult :=
  if articles.isEmpty then
    { text := "Could not generate a summary because no articles were found.",
      calledAI := false, printed := [] }
  else
    match generate (summaryPrompt topic articles) with
    | .ok t =>
        { text := t, calledAI := true,
          printed := ["Sending articles to Gemini 1.5 Pro for summarization..."] }
    | .error e =>
        { text := "Error generating AI summary: " ++ e, calledAI := true,
          printed := ["Sending articles to Gemini 1.5 Pro for summarization..."] }

/-- Embeds Python str.replace for a nonempty pattern: scanning left to
right, every non-overlapping occurrence of the pattern is replaced. -/
def replaceAux (pat rep : List Char) : List Char → List Char
  | [] => []
  | c :: cs =>
    if pat.isPrefixOf (c :: cs) then
      rep ++ replaceAux pat rep (cs.drop (pat.length - 1))
    else
      c :: replaceAux pat rep cs
termination_by l => l.length
decreasing_by
  all_goals simp [List.length_drop]
  omega

/-- Python str.replace on strings, via the character-list worker. -/
def pyReplace (s pat rep : String) : String :=
  ⟨replaceAux pat.data rep.data s.data⟩

/-- Embeds the summary sanitation line: newlines become br tags. -/
def summary_html (summary : String) : String :=
  pyReplace summary "\n" "<br>"

/-- One li element of the headlines_html accumulator. -/
def listItem (a : Article) : String :=
  "<li><a href='" ++ a.getUrl ++ "'>" ++ a.getTitle ++ "</a> (" ++
    a.getSourceName ++ ")</li>"

/-- The headlines_html string built by the loop over articles. -/
def headlines_html (articles : List Article) : String :=
  String.join (articles.map listItem)

/-- The template text before the interpolated summary_html. -/
def htmlTemplate1 : String :=
  "\n    <html>\n    <body>\n        <div style=\"font-family: sans-serif; max-width: 600px; margin: auto; border: 1px solid #ddd; padding: 20px;\">\n            <h2>The Kop AI Daily Briefing</h2>\n            <p><strong>AI-Generated Summary:</strong></p>\n            <p>"

/-- The template text between summary_html and headlines_html. -/
def htmlTemplate2 : String :=
  "</p>\n            <hr>\n            <p><strong>Today's Top Headlines:</strong></p>\n            <ul>\n                "

/-- The template text after the interpolated headlines_html. -/
def htmlTemplate3 : String :=
  "\n            </ul>\n        </div>\n    </body>\n    </html>\n    "

/-- The html_content f-string of send_email_briefing. -/
def html_content (summary : String) (articles : List Article) : String :=
  htmlTemplate1 ++ summary_html summary ++ htmlTemplate2 ++
    headlines_html articles ++ htmlTemplate3

/-- The Mail object handed to the email client. -/
structure Mail where
  from_email : String
  to_emails : String
  subject : String
  htmlContent : String
deriving DecidableEq

/-- Result of one send_email_briefing call: the returned boolean, the mail
handed to the email client if a send was attempted, and console output. -/
structure DispatchResult where
  success : Bool
  attempted : Option Mail
  printed : List String
deriving DecidableEq

/-- Embeds send_email_briefing: with a falsy recipient address or API key
it skips the send and returns false; otherwise it builds the mail, calls
the email client, and returns true on success, false on an exception. -/
def send_email_briefing (env : Env) (sendgrid : Mail → Except String Nat)
    (summary : String) (articles : List Article) : DispatchResult :=
  if pyFalsy env.YOUR_EMAIL_ADDRESS || pyFalsy env.SENDGRID_API_KEY then
    { success := false, attempted := none,
      printed := ["\nEmail credentials not found in .env file. Skipping email."] }
  else
    let toAddr := env.YOUR_EMAIL_ADDRESS.getD ""
    let log0 := "Sending email briefing to " ++ toAddr ++ "..."
    let message : Mail :=
      { from_email := "briefing@thekopai.com", to_emails := toAddr,
        subject := "Your Liverpool FC Briefing for Today",
        htmlContent := html_content summary articles }
    match sendgrid message with
    | .ok code =>
        { success := true, attempted := some message,
          printed := [log0, "Email sent successfully! Status code: " ++ toString code] }
    | .error e =>
        { success := false, attempted := some message,
          printed := [log0, "Error sending email: " ++ e] }

/-- One line of mains console fallback loop: note that the title is taken
by article.get with no default, so a missing title renders as None. -/
def fallbackHeadlineLine (a : Article) : String :=
  "- " ++ pyStr a.title ++ " (" ++ a.getSourceName ++ ")"

/-- The three external collaborators of one run. -/
structure ExtWorld where
  newsApi : GetEverythingParams → Except String NewsResponse
  gemini : String → Except String String
  sendgrid : Mail → Except String Nat

/-- Observable trace of one run of main: the fetched list, the argument
lists passed to the two later stages (none when a stage is skipped), the
summary, the dispatch outcome and the full ordered console output. -/
structure RunTrace where
  articles : List Article
  summarizerInput : Option (List Article)
  summary : Option String
  dispatcherInput : Option (List Article)
  emailSent : Option Bool
  attemptedMail : Option Mail
  printed : List String
deriving DecidableEq

/-- Embeds main: fetch, then if any articles were fetched summarize and
dispatch, with a console fallback when no email was sent; otherwise report
that no articles could be retrieved. -/
def main (env : Env) (w : ExtWorld) : RunTrace :=
  let header := ["--- The Kop AI Daily Briefing ---"]
  let fr := fetch_news TOPIC w.newsApi
  let articles := fr.value
  if articles.isEmpty then
    { articles := articles, summarizerInput := none, summary := none,
      dispatcherInput := none, emailSent := none, attemptedMail := none,
      printed := header ++ fr.printed ++
        ["\nCould not retrieve any news articles.", "\n--- End of Briefing ---"] }
  else
    let sr := summarize_with_ai w.gemini articles TOPIC
    let dr := send_email_briefing env w.sendgrid sr.text articles
    let fallback :=
      if dr.success then [] else
        ["\n--- AI-Generated Summary (Console Fallback) ---", sr.text,
         "\n--- Today's Top Headlines (Console Fallback) ---"] ++
          articles.map fallbackHeadlineLine
    { articles := articles, summarizerInput := some articles,
      summary := some sr.text, dispatcherInput := some articles,
      emailSent := some dr.success, attemptedMail := dr.attempted,
      printed := header ++ fr.printed ++ sr.printed ++ dr.printed ++
        fallback ++ ["\n--- End of Briefing ---"] }

/-- Environment with all four variables unset. -/
def envNone : Env := ⟨none, none, none, none⟩

/-- A fully populated article fixture. -/
def artOne : Article := ⟨some "Title One", some ⟨some "BBC Sport"⟩, some "http://a.example"⟩

/-- A second fully populated article fixture. -/
def artTwo : Article := ⟨some "Title Two", some ⟨some "Sky Sports"⟩, some "http://b.example"⟩

/-- An article with every optional key absent. -/
def artMissing : Article := ⟨none, none, none⟩

/-- C3: on the empty article list, summarize_with_ai returns the fixed
placeholder, invokes no external generation call, and prints nothing, for
every generation function and every topic. -/
theorem empty_articles_placeholder (generate : String → Except String String)
    (topic : String) :
    summarize_with_ai generate [] topic =
      { text := "Could not generate a summary because no articles were found.",
        calledAI := false, printed := [] } := rfl

/-- With an unset recipient address or SendGrid key the dispatcher takes
its short-circuit branch. -/
theorem send_email_skip (env : Env) (sendgrid : Mail → Except String Nat)
    (summary : String) (articles : List Article)
    (h : env.YOUR_EMAIL_ADDRESS = none ∨ env.SENDGRID_API_KEY = none) :
    send_email_briefing env sendgrid summary articles =
      { success := false, attempted := none,
        printed := ["\nEmail credentials not found in .env file. Skipping email."] } := by
  rcases h with h | h <;> simp [send_email_briefing, pyFalsy, h]

/-- C4: when the recipient address or the SendGrid key is unset,
send_email_briefing attempts no send (no mail is handed to the client) and
returns false, for every summary and article list. -/
theorem missing_creds_skip_email (env : Env) (sendgrid : Mail → Except String Nat)
    (summary : String) (articles : List Article)
    (h : env.YOUR_EMAIL_ADDRESS = none ∨ env.SENDGRID_API_KEY = none) :
    send_email_briefing env sendgrid summary articles =
      { success := false, attempted := none,
        printed := ["\nEmail credentials not found in .env file. Skipping email."] } :=
  send_email_skip env sendgrid summary articles h

/-- Witness for C4 at a concrete environment and inputs. -/
theorem missing_creds_skip_email_witness :
    (envNone.YOUR_EMAIL_ADDRESS = none ∨ envNone.SENDGRID_API_KEY = none) ∧
    send_email_briefing envNone (fun _ => .error "offline") "s" [artOne] =
      { success := false, attempted := none,
        printed := ["\nEmail credentials not found in .env file. Skipping email."] } :=
  ⟨Or.inl rfl,
   missing_creds_skip_email envNone (fun _ => .error "offline") "s" [artOne] (Or.inl rfl)⟩

/-- C7: when the news API call raises, fetch_news logs the error and
returns the empty list; being a total function of the outcome, it never
propagates the exception. -/
theorem fetch_error_fail_soft (topic e : String)
    (api : GetEverythingParams → Except String NewsResponse)
    (h : api (getEverythingArgs topic) = .error e) :
    fetch_news topic api =
      { value := [],
        printed := ["Fetching top 5 news articles for '" ++ topic ++ "'...",
                    "Error fetching news: " ++ e] } := by
  simp [fetch_news, h]

/-- Witness for C7 at a concrete failing API. -/
theorem fetch_error_fail_soft_witness :
    ((fun _ : GetEverythingParams =>
        (Except.error "network down" : Except String NewsResponse))
      (getEverythingArgs TOPIC) = .error "network down") ∧
    fetch_news TOPIC (fun _ => .error "network down") =
      { value := [],
        printed := ["Fetching top 5 news articles for 'Liverpool FC'...",
                    "Error fetching news: network down"] } :=
  ⟨rfl, fetch_error_fail_soft TOPIC "network down" _ rfl⟩

/-- For a single-character pattern, the replace worker maps each character
either to the replacement or to itself. -/
theorem replaceAux_single_char (c : Char) (rep : List Char) (l : List Char) :
    replaceAux [c] rep l = (l.map (fun x => if x = c then rep else [x])).flatten := by
  induction l with
  | nil => simp [replaceAux]
  | cons x xs ih =>
    by_cases h : x = c
    · subst h
      simp [replaceAux, List.isPrefixOf, ih]
    · simp [replaceAux, List.isPrefixOf, Ne.symm h, h, ih]

/-- C5: in the sanitized summary every newline has been replaced in place
by a br tag and no raw newline remains. -/
theorem summary_newline_to_br (s : String) (_h : '\n' ∈ s.data) :
    (summary_html s).data =
      (s.data.map fun c => if c = '\n' then ("<br>" : String).data else [c]).flatten ∧
    '\n' ∉ (summary_html s).data := by
  have hdata : (summary_html s).data = replaceAux ['\n'] ("<br>" : String).data s.data := rfl
  refine ⟨by rw [hdata, replaceAux_single_char], ?_⟩
  rw [hdata, replaceAux_single_char]
  intro hmem
  rcases List.mem_flatten.1 hmem with ⟨piece, hp, hc⟩
  rcases List.mem_map.1 hp with ⟨ch, hch, rfl⟩
  by_cases hcc : ch = '\n'
  · simp [hcc] at hc
  · simp [hcc] at hc
    exact hcc hc.symm

/-- Witness for C5 on a concrete two-line summary. -/
theorem summary_newline_to_br_witness :
    ('\n' ∈ ("a\nb" : String).data) ∧
    ((summary_html "a\nb").data =
      (("a\nb" : String).data.map fun c =>
        if c = '\n' then ("<br>" : String).data else [c]).flatten ∧
     '\n' ∉ (summary_html "a\nb").data) :=
  ⟨by decide, summary_newline_to_br "a\nb" (by decide)⟩

/-- C6: for a three-article list the rendered headline block is exactly the
three li items in order, each linking the url of its article and showing
its title and source name. -/
theorem three_articles_three_items (a0 a1 a2 : Article) :
    headlines_html [a0, a1, a2] = listItem a0 ++ listItem a1 ++ listItem a2 ∧
    listItem a0 = "<li><a href='" ++ a0.getUrl ++ "'>" ++ a0.getTitle ++
      "</a> (" ++ a0.getSourceName ++ ")</li>" ∧
    listItem a1 = "<li><a href='" ++ a1.getUrl ++ "'>" ++ a1.getTitle ++
      "</a> (" ++ a1.getSourceName ++ ")</li>" ∧
    listItem a2 = "<li><a href='" ++ a2.getUrl ++ "'>" ++ a2.getTitle ++
      "</a> (" ++ a2.getSourceName ++ ")</li>" := by
  refine ⟨?_, rfl, rfl, rfl⟩
  apply String.ext
  simp [headlines_html, String.join, List.foldl, String.data_append]

/-- External world fixture delivering one article, a successful summary and
a successful send. -/
def wOne : ExtWorld :=
  { newsApi := fun _ => .ok ⟨some [artOne]⟩,
    gemini := fun _ => .ok "Summary text.",
    sendgrid := fun _ => .ok 202 }

/-- External world fixture delivering two articles and the summary used in
the end-to-end claim. -/
def wTwo : ExtWorld :=
  { newsApi := fun _ => .ok ⟨some [artOne, artTwo]⟩,
    gemini := fun _ => .ok "Liverpool won 2-0.",
    sendgrid := fun _ => .ok 202 }

/-- C1: whenever the fetched list is nonempty, main hands exactly the list
returned by fetch_news, unchanged and in the same order, to the summarizer
stage and to the dispatcher stage. -/
theorem pipeline_articles_unchanged (env : Env) (w : ExtWorld)
    (h : (fetch_news TOPIC w.newsApi).value ≠ []) :
    (main env w).articles = (fetch_news TOPIC w.newsApi).value ∧
    (main env w).summarizerInput = some ((fetch_news TOPIC w.newsApi).value) ∧
    (main env w).dispatcherInput = some ((fetch_news TOPIC w.newsApi).value) := by
  have he : (fetch_news TOPIC w.newsApi).value.isEmpty = false := by
    simpa using h
  simp [main, he]

/-- Witness for C1 at a concrete one-article run. -/
theorem pipeline_articles_unchanged_witness :
    ((fetch_news TOPIC wOne.newsApi).value ≠ []) ∧
    ((main envNone wOne).articles = (fetch_news TOPIC wOne.newsApi).value ∧
     (main envNone wOne).summarizerInput = some ((fetch_news TOPIC wOne.newsApi).value) ∧
     (main envNone wOne).dispatcherInput = some ((fetch_news TOPIC wOne.newsApi).value)) :=
  ⟨by decide, pipeline_articles_unchanged envNone wOne (by decide)⟩

/-- C2: with two fetched articles, the summary fixed by the summarizer and
no email credentials, main reports a failed send, attempts no mail, and its
console output ends with the fallback block: the summary, then the two
headline lines with title and source name in fetched order. -/
theorem no_creds_end_to_end (env : Env) (w : ExtWorld) (a0 a1 : Article)
    (hc : env.YOUR_EMAIL_ADDRESS = none ∨ env.SENDGRID_API_KEY = none)
    (hf : (fetch_news TOPIC w.newsApi).value = [a0, a1])
    (hs : (summarize_with_ai w.gemini [a0, a1] TOPIC).text = "Liverpool won 2-0.") :
    (main env w).emailSent = some false ∧
    (main env w).attemptedMail = none ∧
    (main env w).printed =
      ["--- The Kop AI Daily Briefing ---"] ++ (fetch_news TOPIC w.newsApi).printed ++
      (summarize_with_ai w.gemini [a0, a1] TOPIC).printed ++
      ["\nEmail credentials not found in .env file. Skipping email."] ++
      ["\n--- AI-Generated Summary (Console Fallback) ---", "Liverpool won 2-0.",
       "\n--- Today's Top Headlines (Console Fallback) ---",
       "- " ++ pyStr a0.title ++ " (" ++ a0.getSourceName ++ ")",
       "- " ++ pyStr a1.title ++ " (" ++ a1.getSourceName ++ ")"] ++
      ["\n--- End of Briefing ---"] := by
  have hskip := send_email_skip env w.sendgrid "Liverpool won 2-0." [a0, a1] hc
  simp [main, hf, hs, hskip, fallbackHeadlineLine]

/-- Witness for C2 at a concrete two-article run with no credentials. -/
theorem no_creds_end_to_end_witness :
    ((envNone.YOUR_EMAIL_ADDRESS = none ∨ envNone.SENDGRID_API_KEY = none) ∧
     (fetch_news TOPIC wTwo.newsApi).value = [artOne, artTwo] ∧
     (summarize_with_ai wTwo.gemini [artOne, artTwo] TOPIC).text = "Liverpool won 2-0.") ∧
    ((main envNone wTwo).emailSent = some false ∧
     (main envNone wTwo).attemptedMail = none ∧
     (main envNone wTwo).printed =
       ["--- The Kop AI Daily Briefing ---"] ++ (fetch_news TOPIC wTwo.newsApi).printed ++
       (summarize_with_ai wTwo.gemini [artOne, artTwo] TOPIC).printed ++
       ["\nEmail credentials not found in .env file. Skipping email."] ++
       ["\n--- AI-Generated Summary (Console Fallback) ---", "Liverpool won 2-0.",
        "\n--- Today's Top Headlines (Console Fallback) ---",
        "- " ++ pyStr artOne.title ++ " (" ++ artOne.getSourceName ++ ")",
        "- " ++ pyStr artTwo.title ++ " (" ++ artTwo.getSourceName ++ ")"] ++
       ["\n--- End of Briefing ---"]) :=
  ⟨⟨Or.inl rfl, rfl, rfl⟩,
   no_creds_end_to_end envNone wTwo artOne artTwo (Or.inl rfl) rfl rfl⟩

/-- C8 counterexample: an API response carrying six articles makes
fetch_news return six articles, so the length bound does not hold for
every external response. -/
theorem fetch_six_articles_exceeds_five :
    ¬ ((fetch_news TOPIC
        (fun _ => .ok ⟨some (List.replicate 6 artMissing)⟩)).value.length ≤ 5) := by
  decide

/-- C8 amended: fetch_news requests page size 5 and returns the response
list unchanged, so its result has length at most 5 whenever the API honors
the requested page size. -/
theorem fetch_at_most_five_of_honored (topic : String)
    (api : GetEverythingParams → Except String NewsResponse)
    (h : ∀ resp, api (getEverythingArgs topic) = .ok resp →
      (resp.articles.getD []).length ≤ (getEverythingArgs topic).page_size) :
    (getEverythingArgs topic).page_size = 5 ∧
    (fetch_news topic api).value.length ≤ 5 := by
  refine ⟨rfl, ?_⟩
  cases hc : api (getEverythingArgs topic) with
  | ok resp =>
    have hl := h resp hc
    simp only [getEverythingArgs] at hl
    simpa [fetch_news, hc] using hl
  | error e => simp [fetch_news, hc]

/-- Witness for the amended C8 at a concrete honoring API. -/
theorem fetch_at_most_five_of_honored_witness :
    (∀ resp, (fun _ : GetEverythingParams =>
        (Except.ok ⟨some [artOne]⟩ : Except String NewsResponse))
          (getEverythingArgs TOPIC) = .ok resp →
      (resp.articles.getD []).length ≤ (getEverythingArgs TOPIC).page_size) ∧
    ((getEverythingArgs TOPIC).page_size = 5 ∧
     (fetch_news TOPIC (fun _ => .ok ⟨some [artOne]⟩)).value.length ≤ 5) :=
  ⟨fun resp hr => by injection hr with h2; rw [← h2]; decide,
   fetch_at_most_five_of_honored TOPIC _
     (fun resp hr => by injection hr with h2; rw [← h2]; decide)⟩

/-- C9 counterexample: with all four credentials absent the run does not
terminate; it proceeds through fetch, summarize and dispatch, ends with a
failed send and still prints the end-of-briefing line. -/
theorem missing_creds_run_proceeds :
    (main envNone wOne).summarizerInput = some [artOne] ∧
    (main envNone wOne).dispatcherInput = some [artOne] ∧
    (main envNone wOne).emailSent = some false ∧
    (main envNone wOne).printed.getLast? = some "\n--- End of Briefing ---" := by
  decide

/-- C9 amended: missing email credentials never abort the run: the console
output still ends with the end-of-briefing line, no mail is handed to the
email client, and the send is never reported successful. -/
theorem missing_creds_soft_skip (env : Env) (w : ExtWorld)
    (h : env.YOUR_EMAIL_ADDRESS = none ∨ env.SENDGRID_API_KEY = none) :
    (main env w).printed.getLast? = some "\n--- End of Briefing ---" ∧
    (main env w).attemptedMail = none ∧
    (main env w).emailSent ≠ some true := by
  have hskip := send_email_skip env w.sendgrid
    (summarize_with_ai w.gemini (fetch_news TOPIC w.newsApi).value TOPIC).text
    (fetch_news TOPIC w.newsApi).value h
  by_cases he : (fetch_news TOPIC w.newsApi).value.isEmpty <;>
    simp [main, he, hskip, List.getLast?_append, List.getLast?_cons]

/-- Witness for the amended C9 at a concrete credential-free run. -/
theorem missing_creds_soft_skip_witness :
    (envNone.YOUR_EMAIL_ADDRESS = none ∨ envNone.SENDGRID_API_KEY = none) ∧
    ((main envNone wOne).printed.getLast? = some "\n--- End of Briefing ---" ∧
     (main envNone wOne).attemptedMail = none ∧
     (main envNone wOne).emailSent ≠ some true) :=
  ⟨Or.inl rfl, missing_creds_soft_skip envNone wOne (Or.inl rfl)⟩

/-- C10 counterexample: for an article with no title the console fallback
line renders the Python None object, not the N slash A default. -/
theorem fallback_missing_title_prints_none :
    fallbackHeadlineLine artMissing = "- None (N/A)" ∧
    fallbackHeadlineLine artMissing ≠ "- N/A (N/A)" := by
  decide

/-- Article fixture missing only the title. -/
def artNoTitle : Article := ⟨none, some ⟨some "BBC Sport"⟩, some "http://a.example"⟩

/-- Article fixture missing only the source record. -/
def artNoSource : Article := ⟨some "Title One", none, some "http://a.example"⟩

/-- Article fixture missing only the url. -/
def artNoUrl : Article := ⟨some "Title One", some ⟨some "BBC Sport"⟩, none⟩

/-- C10 amended: for every article, each individually missing optional
field is replaced by its default in every place that field is rendered,
leaving the other fields untouched: a missing title renders as the default
in the prompt line and the li element but as None in the console fallback
line; a missing or nameless source renders as the default in all three; a
missing url renders as the hash default in the li element. All renderers
are total, so none of them can raise. -/
theorem missing_fields_defaults (a : Article) (i : Nat) :
    (a.title = none →
      a.getTitle = "N/A" ∧ pyStr a.title = "None" ∧
      articleLine i a = "Article " ++ toString (i + 1) ++ ": \"" ++ "N/A" ++
        "\" (Source: " ++ a.getSourceName ++ ")\n" ∧
      listItem a = "<li><a href='" ++ a.getUrl ++ "'>" ++ "N/A" ++ "</a> (" ++
        a.getSourceName ++ ")</li>" ∧
      fallbackHeadlineLine a = "- " ++ "None" ++ " (" ++ a.getSourceName ++ ")") ∧
    ((a.source = none ∨ a.source = some ⟨none⟩) →
      a.getSourceName = "N/A" ∧
      articleLine i a = "Article " ++ toString (i + 1) ++ ": \"" ++ a.getTitle ++
        "\" (Source: " ++ "N/A" ++ ")\n" ∧
      listItem a = "<li><a href='" ++ a.getUrl ++ "'>" ++ a.getTitle ++
        "</a> (" ++ "N/A" ++ ")</li>" ∧
      fallbackHeadlineLine a = "- " ++ pyStr a.title ++ " (" ++ "N/A" ++ ")") ∧
    (a.url = none →
      a.getUrl = "#" ∧
      listItem a = "<li><a href='" ++ "#" ++ "'>" ++ a.getTitle ++ "</a> (" ++
        a.getSourceName ++ ")</li>") := by
  refine ⟨?_, ?_, ?_⟩
  · intro ht
    have h1 : a.getTitle = "N/A" := by simp [Article.getTitle, ht]
    have h4 : pyStr a.title = "None" := by rw [ht]; rfl
    exact ⟨h1, h4, by rw [articleLine, h1], by rw [listItem, h1],
      by rw [fallbackHeadlineLine, h4]⟩
  · intro hs
    have h3 : a.getSourceName = "N/A" := by
      rcases hs with hs | hs <;> simp [Article.getSourceName, hs]
    exact ⟨h3, by rw [articleLine, h3], by rw [listItem, h3],
      by rw [fallbackHeadlineLine, h3]⟩
  · intro hu
    have h2 : a.getUrl = "#" := by simp [Article.getUrl, hu]
    exact ⟨h2, by rw [listItem, h2]⟩

/-- Witness for the amended C10, applying it to three articles that are
each missing exactly one field: the title, the source, or the url. -/
theorem missing_fields_defaults_witness :
    (artNoTitle.title = none ∧
      (artNoTitle.getTitle = "N/A" ∧ pyStr artNoTitle.title = "None" ∧
       articleLine 0 artNoTitle = "Article " ++ toString (0 + 1) ++ ": \"" ++ "N/A" ++
         "\" (Source: " ++ artNoTitle.getSourceName ++ ")\n" ∧
       listItem artNoTitle = "<li><a href='" ++ artNoTitle.getUrl ++ "'>" ++ "N/A" ++
         "</a> (" ++ artNoTitle.getSourceName ++ ")</li>" ∧
       fallbackHeadlineLine artNoTitle =
         "- " ++ "None" ++ " (" ++ artNoTitle.getSourceName ++ ")")) ∧
    ((artNoSource.source = none ∨ artNoSource.source = some ⟨none⟩) ∧
      (artNoSource.getSourceName = "N/A" ∧
       articleLine 0 artNoSource = "Article " ++ toString (0 + 1) ++ ": \"" ++
         artNoSource.getTitle ++ "\" (Source: " ++ "N/A" ++ ")\n" ∧
       listItem artNoSource = "<li><a href='" ++ artNoSource.getUrl ++ "'>" ++
         artNoSource.getTitle ++ "</a> (" ++ "N/A" ++ ")</li>" ∧
       fallbackHeadlineLine artNoSource =
         "- " ++ pyStr artNoSource.title ++ " (" ++ "N/A" ++ ")")) ∧
    (artNoUrl.url = none ∧
      (artNoUrl.getUrl = "#" ∧
       listItem artNoUrl = "<li><a href='" ++ "#" ++ "'>" ++ artNoUrl.getTitle ++
         "</a> (" ++ artNoUrl.getSourceName ++ ")</li>")) :=
  ⟨⟨rfl, (missing_fields_defaults artNoTitle 0).1 rfl⟩,
   ⟨Or.inl rfl, (missing_fields_defaults artNoSource 0).2.1 (Or.inl rfl)⟩,
   ⟨rfl, (missing_fields_defaults artNoUrl 0).2.2 rfl⟩⟩

end KopAI
